import Mathlib

/-!
Verification of the Doclayer webhook handler
(`supabase/functions/doclayer-webhook/index.ts`).

The handler is embedded as a pure state-transition function over an explicit
database value.  External effects are parameters:

* `hmacHex secret payload` stands for the platform's HMAC-SHA-256 digest of
  `payload` under `secret`, lowercase hex encoded (the result of the
  `crypto.subtle.sign` call followed by the `toString(16).padStart(2,"0")`
  hex-encoder of the source).
* `parse` stands for `JSON.parse` on the raw body (`none` = parse throws).
* `fetchExtractions` stands for the authenticated GET in
  `fetchAndStoreExtractions` (`none` = network error or non-2xx response).
* `Faults` injects the per-table write failures that supabase-js reports in
  the `error` field of each awaited query (a failed statement mutates
  nothing).
* `now` stands for `new Date().toISOString()`.

JavaScript truthiness (`if (webhookSecret)`, `|| "unknown"`, `|| ""`) is
modelled explicitly: a missing header is `none`, and the empty string is
falsy.
-/

namespace Doclayer

/-- JSON numbers of the webhook payloads (`number` in the TypeScript types). -/
abbrev JsNum := Rat

/-- The `data` member of the webhook envelope.  The source casts the untyped
`payload.data` object to one of the per-event-family interfaces
(`DocumentProcessingStarted`, `BatchCompleted`, ...); this structure merges
the fields of all those interfaces, with the fields the interfaces declare
optional as `Option`. -/
structure EventData where
  job_id : String := ""
  checksum : String := ""
  document_id : Option String := none
  insights_count : JsNum := 0
  confidence_metrics : List (String × JsNum) := []
  agent_analysis_enabled : Option Bool := none
  error : String := ""
  error_type : String := ""
  batch_id : String := ""
  total_documents : JsNum := 0
  completed : JsNum := 0
  total : JsNum := 0
  failed : JsNum := 0
  successful : JsNum := 0
  duration_seconds : JsNum := 0
  project_id : Option String := none
  current_balance : JsNum := 0
  threshold : JsNum := 0
  currency : String := ""
  period_start : String := ""
  period_end : String := ""
  total_pages : JsNum := 0
  total_cost : JsNum := 0
  workflow_id : String := ""
  workflow_type : String := ""
  result : Option String := none
  timestamp : String := ""
  deriving DecidableEq, Repr

/-- The decoded webhook envelope (`WebhookPayload` in the source).
`event_type` is `Option` because the handler reads it with `||` fallback
semantics: the body's field may be absent. -/
structure WebhookPayload where
  event_type : Option String := none
  timestamp : String := ""
  data : EventData := {}
  deriving DecidableEq, Repr

/-- A row of `doclayer_documents` (fields the handler reads or writes,
with the SQL defaults of `001_doclayer_documents.sql` for inserts). -/
structure DocRow where
  /-- `id UUID PRIMARY KEY` — modelled as a fresh string drawn from the
  database's id supply at insert time. -/
  id : String := ""
  doclayer_job_id : String
  doclayer_document_id : Option String := none
  checksum : Option String := none
  status : String := "pending"
  insights_count : JsNum := 0
  confidence_metrics : Option (List (String × JsNum)) := none
  error_message : Option String := none
  error_type : Option String := none
  raw_payload : Option WebhookPayload := none
  doclayer_created_at : Option String := none
  updated_at : Option String := none
  deriving DecidableEq, Repr

/-- A row of `doclayer_extractions`. -/
structure ExtractionRow where
  document_id : String
  extraction_type : String
  extraction_key : Option String := none
  content : String := ""
  confidence : Option JsNum := none
  page_number : Option JsNum := none
  source_text : Option String := none
  deriving DecidableEq, Repr

/-- One element of the `extractions` array returned by the Doclayer API. -/
structure ExtractionData where
  ext_type : Option String := none
  key : Option String := none
  value : String := ""
  confidence : Option JsNum := none
  page : Option JsNum := none
  source_text : Option String := none
  deriving DecidableEq, Repr

/-- A row of `doclayer_batches`. -/
structure BatchRow where
  batch_id : String
  project_id : Option String := none
  total_documents : JsNum := 0
  completed_count : JsNum := 0
  failed_count : JsNum := 0
  status : String := "pending"
  error_message : Option String := none
  error_type : Option String := none
  duration_seconds : Option JsNum := none
  raw_payload : Option WebhookPayload := none
  started_at : Option String := none
  completed_at : Option String := none
  updated_at : Option String := none
  deriving DecidableEq, Repr

/-- A row of `doclayer_workflows`. -/
structure WorkflowRow where
  workflow_id : String
  workflow_type : String := ""
  document_id : Option String := none
  status : String := "pending"
  result : Option String := none
  error_message : Option String := none
  error_type : Option String := none
  duration_seconds : Option JsNum := none
  raw_payload : Option WebhookPayload := none
  started_at : Option String := none
  completed_at : Option String := none
  updated_at : Option String := none
  deriving DecidableEq, Repr

/-- A row of `doclayer_billing_alerts` (append-only). -/
structure BillingAlertRow where
  alert_type : String
  current_balance : JsNum := 0
  threshold : Option JsNum := none
  currency : String := ""
  raw_payload : Option WebhookPayload := none
  deriving DecidableEq, Repr

/-- A row of `doclayer_usage_reports` (append-only). -/
structure UsageReportRow where
  period_start : String
  period_end : String
  total_documents : JsNum := 0
  total_pages : JsNum := 0
  total_cost : JsNum := 0
  currency : String := ""
  raw_payload : Option WebhookPayload := none
  deriving DecidableEq, Repr

/-- A row of `doclayer_webhook_events` (the audit log).  `processed`
defaults to `FALSE` in the schema. -/
structure EventRow where
  event_type : Option String := none
  event_id : String
  payload : WebhookPayload := {}
  signature_valid : Bool := false
  processed : Bool := false
  processed_at : Option String := none
  deriving DecidableEq, Repr

/-- The database state: the six tables the handler writes, plus a fresh-id
supply standing for `gen_random_uuid()` on document inserts. -/
structure Db where
  documents : List DocRow := []
  extractions : List ExtractionRow := []
  batches : List BatchRow := []
  workflows : List WorkflowRow := []
  billing_alerts : List BillingAlertRow := []
  usage_reports : List UsageReportRow := []
  webhook_events : List EventRow := []
  nextId : Nat := 0
  deriving DecidableEq, Repr

/-- Environment configuration read at the top of the request
(`Deno.env.get`). -/
structure Config where
  secret : Option String := none
  apiKey : Option String := none
  deriving DecidableEq, Repr

/-- The inbound HTTP request.  Headers are `Option` (`headers.get` returns
`null` for an absent header). -/
structure Request where
  method : String := "POST"
  sigHeader : Option String := none
  eventHeader : Option String := none
  deliveryHeader : Option String := none
  rawBody : String := ""
  deriving DecidableEq, Repr

/-- Which of the request's database statements report an error.  A failed
statement leaves its table unchanged. -/
structure Faults where
  docWrite : Bool := false
  batchWrite : Bool := false
  workflowWrite : Bool := false
  billingWrite : Bool := false
  usageWrite : Bool := false
  extractionWrite : Bool := false
  auditInsert : Bool := false
  auditUpdate : Bool := false
  deriving DecidableEq, Repr

/-- JavaScript truthiness of `Deno.env.get(...)`: unset or empty is falsy. -/
def truthyEnv : Option String → Bool
  | none => false
  | some s => !(s == "")

/-- `verifySignature` of the source.  `hmacHex secret payload` is the
lowercase hex HMAC-SHA-256 digest the `crypto.subtle` calls compute.
`signature.replace("sha256=", "")` removes the first occurrence of the
pattern; since the guard ensures the string starts with `sha256=` (7
characters), that is exactly dropping the prefix. -/
def verifySignature (hmacHex : String → String → String)
    (payload signature secret : String) : Bool :=
  if signature == "" || !(signature.startsWith "sha256=") then
    false
  else
    let expectedSignature := signature.drop 7
    hmacHex secret payload == expectedSignature

/-- `eventType = req.headers.get("x-webhook-event") || payload.event_type`:
the header wins unless it is absent or empty. -/
def effectiveEventType (hdr : Option String) (bodyType : Option String) :
    Option String :=
  match hdr with
  | none => bodyType
  | some h => if h == "" then bodyType else some h

/-- `deliveryId = req.headers.get("x-webhook-delivery") || "unknown"`. -/
def effectiveDeliveryId (hdr : Option String) : String :=
  match hdr with
  | none => "unknown"
  | some h => if h == "" then "unknown" else h

/-- `upsert(..., { onConflict: "doclayer_job_id" })` on `doclayer_documents`:
if a row with the job id exists, `DO UPDATE` applies the supplied columns to
it; otherwise a fresh row is inserted (drawing a fresh primary key from the
id supply, standing for `gen_random_uuid()`). -/
def docUpsert (jobId : String) (upd : DocRow → DocRow) (mk : String → DocRow)
    (db : Db) : Db :=
  if db.documents.any (fun r => r.doclayer_job_id == jobId) then
    { db with
      documents := db.documents.map
        fun r => if r.doclayer_job_id == jobId then upd r else r }
  else
    { db with
      documents := db.documents ++ [mk (toString db.nextId)],
      nextId := db.nextId + 1 }

/-- The columns of the `handleProcessingStarted` upsert, applied to an
existing row (the `updated_at` refresh comes from the
`trigger_doclayer_documents_updated_at` `BEFORE UPDATE` trigger). -/
def startedUpd (now : String) (data : EventData) (rawPayload : WebhookPayload)
    (r : DocRow) : DocRow :=
  { r with
    checksum := some data.checksum,
    status := "processing",
    doclayer_created_at := some data.timestamp,
    raw_payload := some rawPayload,
    updated_at := some now }

/-- The row inserted by the `handleProcessingStarted` upsert when no row
with the job id exists (unsupplied columns take their SQL defaults). -/
def startedNew (now : String) (data : EventData) (rawPayload : WebhookPayload)
    (fresh : String) : DocRow :=
  { id := fresh,
    doclayer_job_id := data.job_id,
    checksum := some data.checksum,
    status := "processing",
    doclayer_created_at := some data.timestamp,
    raw_payload := some rawPayload,
    updated_at := some now }

/-- `handleProcessingStarted`: upsert on `doclayer_documents` keyed by
`doclayer_job_id`; a reported error is thrown (aborts the request). -/
def handleProcessingStarted (faults : Faults) (now : String)
    (data : EventData) (rawPayload : WebhookPayload) (db : Db) :
    Except String Db :=
  if faults.docWrite then .error "Failed to insert document" else
  .ok (docUpsert data.job_id (startedUpd now data rawPayload)
        (startedNew now data rawPayload) db)

/-- The transformation `fetchAndStoreExtractions` applies to one element of
the fetched `extractions` array. -/
def toExtractionRow (docRecordId : String) (ext : ExtractionData) :
    ExtractionRow :=
  { document_id := docRecordId,
    extraction_type := ext.ext_type.getD "unknown",
    extraction_key := ext.key,
    content := ext.value,
    confidence := ext.confidence,
    page_number := ext.page,
    source_text := ext.source_text }

/-- The guarded bulk insert at the end of `fetchAndStoreExtractions`: it
only runs when the transformed array is non-empty, and a reported error is
only logged. -/
def insertExtractions (faults : Faults) (rows : List ExtractionRow)
    (db : Db) : Db :=
  if rows.length > 0 && !faults.extractionWrite then
    { db with extractions := db.extractions ++ rows }
  else db

/-- `fetchAndStoreExtractions`: best-effort enrichment after a completed
event.  `fetch documentId` is the API response (`none` = network error or
non-2xx, mirrored by the early `return`); the parent row is looked up by
job id (`.single()`, so a missing row aborts silently). -/
def fetchAndStoreExtractions (fetch : String → Option (List ExtractionData))
    (faults : Faults) (jobId documentId : String) (db : Db) : Db :=
  match fetch documentId with
  | none => db
  | some extsData =>
    match db.documents.find? (fun r => r.doclayer_job_id == jobId) with
    | none => db
    | some docRecord =>
      insertExtractions faults (extsData.map (toExtractionRow docRecord.id))
        db

/-- The columns of the `handleProcessingCompleted` upsert, applied to an
existing row. -/
def completedUpd (now : String) (data : EventData)
    (rawPayload : WebhookPayload) (r : DocRow) : DocRow :=
  { r with
    doclayer_document_id := data.document_id,
    status := "completed",
    insights_count := data.insights_count,
    confidence_metrics := some data.confidence_metrics,
    raw_payload := some rawPayload,
    updated_at := some now }

/-- The row inserted by the `handleProcessingCompleted` upsert when no row
with the job id exists. -/
def completedNew (now : String) (data : EventData)
    (rawPayload : WebhookPayload) (fresh : String) : DocRow :=
  { id := fresh,
    doclayer_job_id := data.job_id,
    doclayer_document_id := data.document_id,
    status := "completed",
    insights_count := data.insights_count,
    confidence_metrics := some data.confidence_metrics,
    raw_payload := some rawPayload,
    updated_at := some now }

/-- `handleProcessingCompleted`: upsert keyed by `doclayer_job_id` setting
the terminal `completed` state; a reported error is thrown.  When an API
key is configured (truthy) and `data.document_id` is truthy, the
best-effort extraction fetch runs afterwards. -/
def handleProcessingCompleted (fetch : String → Option (List ExtractionData))
    (cfg : Config) (faults : Faults) (now : String)
    (data : EventData) (rawPayload : WebhookPayload) (db : Db) :
    Except String Db :=
  if faults.docWrite then .error "Failed to update document" else
  let db1 := docUpsert data.job_id (completedUpd now data rawPayload)
    (completedNew now data rawPayload) db
  if truthyEnv cfg.apiKey && truthyEnv data.document_id then
    .ok (fetchAndStoreExtractions fetch faults data.job_id
          (data.document_id.getD "") db1)
  else
    .ok db1

/-- The columns of the `handleProcessingFailed` upsert, applied to an
existing row. -/
def failedUpd (now : String) (data : EventData)
    (rawPayload : WebhookPayload) (r : DocRow) : DocRow :=
  { r with
    doclayer_document_id := data.document_id,
    status := "failed",
    error_message := some data.error,
    error_type := some data.error_type,
    raw_payload := some rawPayload,
    updated_at := some now }

/-- The row inserted by the `handleProcessingFailed` upsert when no row
with the job id exists. -/
def failedNew (now : String) (data : EventData)
    (rawPayload : WebhookPayload) (fresh : String) : DocRow :=
  { id := fresh,
    doclayer_job_id := data.job_id,
    doclayer_document_id := data.document_id,
    status := "failed",
    error_message := some data.error,
    error_type := some data.error_type,
    raw_payload := some rawPayload,
    updated_at := some now }

/-- `handleProcessingFailed`: upsert keyed by `doclayer_job_id` setting the
terminal `failed` state with error fields; a reported error is thrown. -/
def handleProcessingFailed (faults : Faults) (now : String)
    (data : EventData) (rawPayload : WebhookPayload) (db : Db) :
    Except String Db :=
  if faults.docWrite then .error "Failed to update document" else
  .ok (docUpsert data.job_id (failedUpd now data rawPayload)
        (failedNew now data rawPayload) db)

/-- `upsert(..., { onConflict: "batch_id" })` on `doclayer_batches` (the
handler never reads the batch table's generated id, so no id supply is
threaded). -/
def batchUpsert (batchId : String) (upd : BatchRow → BatchRow)
    (mk : BatchRow) (db : Db) : Db :=
  if db.batches.any (fun r => r.batch_id == batchId) then
    { db with
      batches := db.batches.map
        fun r => if r.batch_id == batchId then upd r else r }
  else
    { db with batches := db.batches ++ [mk] }

/-- `.update(...).eq("batch_id", ...)` on `doclayer_batches`: updates every
matching row, inserts nothing. -/
def batchUpdate (batchId : String) (upd : BatchRow → BatchRow) (db : Db) :
    Db :=
  { db with
    batches := db.batches.map
      fun r => if r.batch_id == batchId then upd r else r }

/-- The columns of the `handleBatchStarted` upsert, applied to an existing
row (`updated_at` from the batch `BEFORE UPDATE` trigger). -/
def batchStartedUpd (now : String) (data : EventData)
    (rawPayload : WebhookPayload) (r : BatchRow) : BatchRow :=
  { r with
    total_documents := data.total_documents,
    project_id := data.project_id,
    status := "processing",
    started_at := some data.timestamp,
    raw_payload := some rawPayload,
    updated_at := some now }

/-- The row inserted by the `handleBatchStarted` upsert when no row with the
batch id exists. -/
def batchStartedNew (data : EventData) (rawPayload : WebhookPayload) :
    BatchRow :=
  { batch_id := data.batch_id,
    total_documents := data.total_documents,
    project_id := data.project_id,
    status := "processing",
    started_at := some data.timestamp,
    raw_payload := some rawPayload }

/-- `handleBatchStarted`: upsert; a reported error is only logged
("Don't throw - table may not exist"). -/
def handleBatchStarted (faults : Faults) (now : String)
    (data : EventData) (rawPayload : WebhookPayload) (db : Db) : Db :=
  if faults.batchWrite then db else
  batchUpsert data.batch_id (batchStartedUpd now data rawPayload)
    (batchStartedNew data rawPayload) db

/-- The columns of the `handleBatchProgress` update. -/
def batchProgressUpd (now : String) (data : EventData) (r : BatchRow) :
    BatchRow :=
  { r with
    completed_count := data.completed,
    failed_count := data.failed,
    updated_at := some now }

/-- `handleBatchProgress`: counter-only update matched by `batch_id`;
errors are only logged. -/
def handleBatchProgress (faults : Faults) (now : String)
    (data : EventData) (db : Db) : Db :=
  if faults.batchWrite then db else
  batchUpdate data.batch_id (batchProgressUpd now data) db

/-- The columns of the `handleBatchCompleted` update. -/
def batchCompletedUpd (now : String) (data : EventData)
    (rawPayload : WebhookPayload) (r : BatchRow) : BatchRow :=
  { r with
    status := "completed",
    completed_count := data.successful,
    failed_count := data.failed,
    duration_seconds := some data.duration_seconds,
    completed_at := some data.timestamp,
    raw_payload := some rawPayload,
    updated_at := some now }

/-- `handleBatchCompleted`: terminal update matched by `batch_id`; errors
are only logged. -/
def handleBatchCompleted (faults : Faults) (now : String)
    (data : EventData) (rawPayload : WebhookPayload) (db : Db) : Db :=
  if faults.batchWrite then db else
  batchUpdate data.batch_id (batchCompletedUpd now data rawPayload) db

/-- The columns of the `handleBatchFailed` update. -/
def batchFailedUpd (now : String) (data : EventData)
    (rawPayload : WebhookPayload) (r : BatchRow) : BatchRow :=
  { r with
    status := "failed",
    error_message := some data.error,
    error_type := some data.error_type,
    completed_count := data.completed,
    raw_payload := some rawPayload,
    updated_at := some now }

/-- `handleBatchFailed`: terminal update matched by `batch_id`; errors are
only logged. -/
def handleBatchFailed (faults : Faults) (now : String)
    (data : EventData) (rawPayload : WebhookPayload) (db : Db) : Db :=
  if faults.batchWrite then db else
  batchUpdate data.batch_id (batchFailedUpd now data rawPayload) db

/-- The row inserted by `handleBillingCreditsLow`. -/
def creditsLowRow (data : EventData) (rawPayload : WebhookPayload) :
    BillingAlertRow :=
  { alert_type := "credits_low",
    current_balance := data.current_balance,
    threshold := some data.threshold,
    currency := data.currency,
    raw_payload := some rawPayload }

/-- `handleBillingCreditsLow`: plain insert into `doclayer_billing_alerts`;
errors are only logged. -/
def handleBillingCreditsLow (faults : Faults)
    (data : EventData) (rawPayload : WebhookPayload) (db : Db) : Db :=
  if faults.billingWrite then db else
  { db with
    billing_alerts := db.billing_alerts ++ [creditsLowRow data rawPayload] }

/-- The row inserted by `handleBillingCreditsExhausted` (no `threshold`
column supplied). -/
def creditsExhaustedRow (data : EventData) (rawPayload : WebhookPayload) :
    BillingAlertRow :=
  { alert_type := "credits_exhausted",
    current_balance := data.current_balance,
    currency := data.currency,
    raw_payload := some rawPayload }

/-- `handleBillingCreditsExhausted`: plain insert; errors are only
logged. -/
def handleBillingCreditsExhausted (faults : Faults)
    (data : EventData) (rawPayload : WebhookPayload) (db : Db) : Db :=
  if faults.billingWrite then db else
  { db with
    billing_alerts :=
      db.billing_alerts ++ [creditsExhaustedRow data rawPayload] }

/-- The row inserted by `handleBillingUsageReport`. -/
def usageReportRow (data : EventData) (rawPayload : WebhookPayload) :
    UsageReportRow :=
  { period_start := data.period_start,
    period_end := data.period_end,
    total_documents := data.total_documents,
    total_pages := data.total_pages,
    total_cost := data.total_cost,
    currency := data.currency,
    raw_payload := some rawPayload }

/-- `handleBillingUsageReport`: plain insert into `doclayer_usage_reports`;
errors are only logged. -/
def handleBillingUsageReport (faults : Faults)
    (data : EventData) (rawPayload : WebhookPayload) (db : Db) : Db :=
  if faults.usageWrite then db else
  { db with
    usage_reports := db.usage_reports ++ [usageReportRow data rawPayload] }

/-- `upsert(..., { onConflict: "workflow_id" })` on `doclayer_workflows`. -/
def workflowUpsert (workflowId : String) (upd : WorkflowRow → WorkflowRow)
    (mk : WorkflowRow) (db : Db) : Db :=
  if db.workflows.any (fun r => r.workflow_id == workflowId) then
    { db with
      workflows := db.workflows.map
        fun r => if r.workflow_id == workflowId then upd r else r }
  else
    { db with workflows := db.workflows ++ [mk] }

/-- `.update(...).eq("workflow_id", ...)` on `doclayer_workflows`. -/
def workflowUpdate (workflowId : String) (upd : WorkflowRow → WorkflowRow)
    (db : Db) : Db :=
  { db with
    workflows := db.workflows.map
      fun r => if r.workflow_id == workflowId then upd r else r }

/-- The columns of the `handleWorkflowStarted` upsert, applied to an
existing row (`updated_at` from the workflow `BEFORE UPDATE` trigger). -/
def workflowStartedUpd (now : String) (data : EventData)
    (rawPayload : WebhookPayload) (r : WorkflowRow) : WorkflowRow :=
  { r with
    workflow_type := data.workflow_type,
    document_id := data.document_id,
    status := "running",
    started_at := some data.timestamp,
    raw_payload := some rawPayload,
    updated_at := some now }

/-- The row inserted by the `handleWorkflowStarted` upsert when no row with
the workflow id exists. -/
def workflowStartedNew (data : EventData) (rawPayload : WebhookPayload) :
    WorkflowRow :=
  { workflow_id := data.workflow_id,
    workflow_type := data.workflow_type,
    document_id := data.document_id,
    status := "running",
    started_at := some data.timestamp,
    raw_payload := some rawPayload }

/-- `handleWorkflowStarted`: upsert; errors are only logged. -/
def handleWorkflowStarted (faults : Faults) (now : String)
    (data : EventData) (rawPayload : WebhookPayload) (db : Db) : Db :=
  if faults.workflowWrite then db else
  workflowUpsert data.workflow_id (workflowStartedUpd now data rawPayload)
    (workflowStartedNew data rawPayload) db

/-- The columns of the `handleWorkflowCompleted` update. -/
def workflowCompletedUpd (now : String) (data : EventData)
    (rawPayload : WebhookPayload) (r : WorkflowRow) : WorkflowRow :=
  { r with
    status := "completed",
    result := data.result,
    duration_seconds := some data.duration_seconds,
    completed_at := some data.timestamp,
    raw_payload := some rawPayload,
    updated_at := some now }

/-- `handleWorkflowCompleted`: update matched by `workflow_id`; errors are
only logged. -/
def handleWorkflowCompleted (faults : Faults) (now : String)
    (data : EventData) (rawPayload : WebhookPayload) (db : Db) : Db :=
  if faults.workflowWrite then db else
  workflowUpdate data.workflow_id (workflowCompletedUpd now data rawPayload)
    db

/-- The columns of the `handleWorkflowFailed` update. -/
def workflowFailedUpd (now : String) (data : EventData)
    (rawPayload : WebhookPayload) (r : WorkflowRow) : WorkflowRow :=
  { r with
    status := "failed",
    error_message := some data.error,
    error_type := some data.error_type,
    raw_payload := some rawPayload,
    updated_at := some now }

/-- `handleWorkflowFailed`: update matched by `workflow_id`; errors are
only logged. -/
def handleWorkflowFailed (faults : Faults) (now : String)
    (data : EventData) (rawPayload : WebhookPayload) (db : Db) : Db :=
  if faults.workflowWrite then db else
  workflowUpdate data.workflow_id (workflowFailedUpd now data rawPayload) db

/-- The `switch (eventType)` of the serve handler, written as the
equality chain the switch denotes.  Document handlers may throw
(`Except.error`), every other arm only logs its persistence errors;
`test.ping` and the `default` arm perform no mutation (`switch` on an
absent event type hits `default`). -/
def routeEventKey (fetch : String → Option (List ExtractionData))
    (cfg : Config) (faults : Faults) (now : String)
    (s : String) (payload : WebhookPayload) (db : Db) :
    Except String Db :=
  if s == "document.processing.started" then
    handleProcessingStarted faults now payload.data payload db
  else if s == "document.processing.completed" then
    handleProcessingCompleted fetch cfg faults now payload.data payload db
  else if s == "document.processing.failed" then
    handleProcessingFailed faults now payload.data payload db
  else if s == "batch.started" then
    .ok (handleBatchStarted faults now payload.data payload db)
  else if s == "batch.progress" then
    .ok (handleBatchProgress faults now payload.data db)
  else if s == "batch.completed" then
    .ok (handleBatchCompleted faults now payload.data payload db)
  else if s == "batch.failed" then
    .ok (handleBatchFailed faults now payload.data payload db)
  else if s == "billing.credits.low" then
    .ok (handleBillingCreditsLow faults payload.data payload db)
  else if s == "billing.credits.exhausted" then
    .ok (handleBillingCreditsExhausted faults payload.data payload db)
  else if s == "billing.usage.report" then
    .ok (handleBillingUsageReport faults payload.data payload db)
  else if s == "workflow.started" then
    .ok (handleWorkflowStarted faults now payload.data payload db)
  else if s == "workflow.completed" then
    .ok (handleWorkflowCompleted faults now payload.data payload db)
  else if s == "workflow.failed" then
    .ok (handleWorkflowFailed faults now payload.data payload db)
  else if s == "test.ping" then
    .ok db
  else
    .ok db

/-- `switch` on an absent event type (`undefined`) hits `default`; a
present key dispatches through the equality chain. -/
def routeEvent (fetch : String → Option (List ExtractionData))
    (cfg : Config) (faults : Faults) (now : String)
    (eventType : Option String) (payload : WebhookPayload) (db : Db) :
    Except String Db :=
  match eventType with
  | none => .ok db
  | some s => routeEventKey fetch cfg faults now s payload db

/-- The audit insert into `doclayer_webhook_events`, performed after parsing
and before routing.  The source never reads the insert's result, so a
reported error (`faults.auditInsert`) is silently dropped.  Note the
constant `signature_valid: true`. -/
def logWebhookEvent (faults : Faults) (eventType : Option String)
    (deliveryId : String) (payload : WebhookPayload) (db : Db) : Db :=
  if faults.auditInsert then db else
  { db with webhook_events := db.webhook_events ++
      [{ event_type := eventType,
         event_id := deliveryId,
         payload := payload,
         signature_valid := true }] }

/-- The end-of-request
`.update({ processed: true, processed_at: ... }).eq("event_id", deliveryId)`:
it updates every `doclayer_webhook_events` row whose `event_id` equals the
delivery identifier, and the source ignores its result. -/
def markProcessed (faults : Faults) (now : String) (deliveryId : String)
    (db : Db) : Db :=
  if faults.auditUpdate then db else
  { db with
    webhook_events := db.webhook_events.map
      fun r =>
        if r.event_id == deliveryId then
          { r with processed := true, processed_at := some now }
        else r }

/-- The guard of the signature check in the serve handler:
the request is rejected with 401 exactly when a secret is configured
(truthy) and `verifySignature(rawBody, header || "", secret)` is false. -/
def sigRejected (hmacHex : String → String → String) (cfg : Config)
    (req : Request) : Bool :=
  truthyEnv cfg.secret &&
    !(verifySignature hmacHex req.rawBody (req.sigHeader.getD "")
        (cfg.secret.getD ""))

/-- The whole `serve` handler as a function from request and database to
response status and new database.  `parse` stands for `JSON.parse`
(`none` = throws, caught as 500).  Mutations performed before a thrown
error persist (they were separate awaited statements). -/
def handleRequest (hmacHex : String → String → String)
    (parse : String → Option WebhookPayload)
    (fetch : String → Option (List ExtractionData))
    (cfg : Config) (faults : Faults) (now : String)
    (req : Request) (db : Db) : Nat × Db :=
  if !(req.method == "POST") then (405, db)
  else if sigRejected hmacHex cfg req then (401, db)
  else
    match parse req.rawBody with
    | none => (500, db)
    | some payload =>
      let eventType := effectiveEventType req.eventHeader payload.event_type
      let deliveryId := effectiveDeliveryId req.deliveryHeader
      let db1 := logWebhookEvent faults eventType deliveryId payload db
      match routeEvent fetch cfg faults now eventType payload db1 with
      | .error _ => (500, db1)
      | .ok db2 => (200, markProcessed faults now deliveryId db2)

/-- The routing keys of the `switch` (including the side-effect-free
`test.ping`); everything else falls to the `default` arm. -/
def recognizedEventTypes : List String :=
  ["document.processing.started", "document.processing.completed",
   "document.processing.failed", "batch.started", "batch.progress",
   "batch.completed", "batch.failed", "billing.credits.low",
   "billing.credits.exhausted", "billing.usage.report", "workflow.started",
   "workflow.completed", "workflow.failed", "test.ping"]

/-- The three routing keys whose handlers throw on a persistence error. -/
def documentEventTypes : List String :=
  ["document.processing.started", "document.processing.completed",
   "document.processing.failed"]

/-- The routing keys of the best-effort (batch / workflow / billing / usage)
handlers. -/
def secondaryEventTypes : List String :=
  ["batch.started", "batch.progress", "batch.completed", "batch.failed",
   "billing.credits.low", "billing.credits.exhausted",
   "billing.usage.report", "workflow.started", "workflow.completed",
   "workflow.failed"]

/-- The statuses the spec calls terminal. -/
def terminalStatus (s : String) : Bool :=
  s == "completed" || s == "failed" || s == "cancelled"

section Lemmas

variable {hmacHex : String → String → String}
variable {parse : String → Option WebhookPayload}
variable {fetch : String → Option (List ExtractionData)}
variable {cfg : Config} {faults : Faults} {now : String}
variable {req : Request} {db db' : Db} {payload : WebhookPayload}
variable {data : EventData}

theorem insertExtractions_documents (rows : List ExtractionRow) :
    (insertExtractions faults rows db).documents = db.documents := by
  unfold insertExtractions
  split <;> rfl

theorem insertExtractions_webhook_events (rows : List ExtractionRow) :
    (insertExtractions faults rows db).webhook_events = db.webhook_events := by
  unfold insertExtractions
  split <;> rfl

theorem fetchAndStore_documents (jobId documentId : String) :
    (fetchAndStoreExtractions fetch faults jobId documentId db).documents =
      db.documents := by
  unfold fetchAndStoreExtractions
  repeat' split
  · rfl
  · rfl
  · exact insertExtractions_documents _

theorem fetchAndStore_webhook_events (jobId documentId : String) :
    (fetchAndStoreExtractions fetch faults jobId documentId db).webhook_events
      = db.webhook_events := by
  unfold fetchAndStoreExtractions
  repeat' split
  · rfl
  · rfl
  · exact insertExtractions_webhook_events _

theorem docUpsert_webhook_events (j : String) (u : DocRow → DocRow)
    (mk : String → DocRow) :
    (docUpsert j u mk db).webhook_events = db.webhook_events := by
  unfold docUpsert
  split <;> rfl

theorem batchUpsert_webhook_events (j : String) (u : BatchRow → BatchRow)
    (mk : BatchRow) :
    (batchUpsert j u mk db).webhook_events = db.webhook_events := by
  unfold batchUpsert
  split <;> rfl

theorem workflowUpsert_webhook_events (j : String)
    (u : WorkflowRow → WorkflowRow) (mk : WorkflowRow) :
    (workflowUpsert j u mk db).webhook_events = db.webhook_events := by
  unfold workflowUpsert
  split <;> rfl

theorem hps_ok_webhook_events
    (h : handleProcessingStarted faults now data payload db = .ok db') :
    db'.webhook_events = db.webhook_events := by
  unfold handleProcessingStarted at h
  split at h
  · exact Except.noConfusion h
  · injection h with h
    subst h
    exact docUpsert_webhook_events _ _ _

theorem hpc_ok_webhook_events
    (h : handleProcessingCompleted fetch cfg faults now data payload db
      = .ok db') :
    db'.webhook_events = db.webhook_events := by
  unfold handleProcessingCompleted at h
  split at h
  · exact Except.noConfusion h
  · split at h <;> injection h with h <;> subst h
    · rw [fetchAndStore_webhook_events]
      exact docUpsert_webhook_events _ _ _
    · exact docUpsert_webhook_events _ _ _

theorem hpf_ok_webhook_events
    (h : handleProcessingFailed faults now data payload db = .ok db') :
    db'.webhook_events = db.webhook_events := by
  unfold handleProcessingFailed at h
  split at h
  · exact Except.noConfusion h
  · injection h with h
    subst h
    exact docUpsert_webhook_events _ _ _

theorem handleBatchStarted_webhook_events :
    (handleBatchStarted faults now data payload db).webhook_events =
      db.webhook_events := by
  unfold handleBatchStarted
  split
  · rfl
  · exact batchUpsert_webhook_events _ _ _

theorem handleBatchProgress_webhook_events :
    (handleBatchProgress faults now data db).webhook_events =
      db.webhook_events := by
  unfold handleBatchProgress batchUpdate
  split <;> rfl

theorem handleBatchCompleted_webhook_events :
    (handleBatchCompleted faults now data payload db).webhook_events =
      db.webhook_events := by
  unfold handleBatchCompleted batchUpdate
  split <;> rfl

theorem handleBatchFailed_webhook_events :
    (handleBatchFailed faults now data payload db).webhook_events =
      db.webhook_events := by
  unfold handleBatchFailed batchUpdate
  split <;> rfl

theorem handleBillingCreditsLow_webhook_events :
    (handleBillingCreditsLow faults data payload db).webhook_events =
      db.webhook_events := by
  unfold handleBillingCreditsLow
  split <;> rfl

theorem handleBillingCreditsExhausted_webhook_events :
    (handleBillingCreditsExhausted faults data payload db).webhook_events =
      db.webhook_events := by
  unfold handleBillingCreditsExhausted
  split <;> rfl

theorem handleBillingUsageReport_webhook_events :
    (handleBillingUsageReport faults data payload db).webhook_events =
      db.webhook_events := by
  unfold handleBillingUsageReport
  split <;> rfl

theorem handleWorkflowStarted_webhook_events :
    (handleWorkflowStarted faults now data payload db).webhook_events =
      db.webhook_events := by
  unfold handleWorkflowStarted
  split
  · rfl
  · exact workflowUpsert_webhook_events _ _ _

theorem handleWorkflowCompleted_webhook_events :
    (handleWorkflowCompleted faults now data payload db).webhook_events =
      db.webhook_events := by
  unfold handleWorkflowCompleted workflowUpdate
  split <;> rfl

theorem handleWorkflowFailed_webhook_events :
    (handleWorkflowFailed faults now data payload db).webhook_events =
      db.webhook_events := by
  unfold handleWorkflowFailed workflowUpdate
  split <;> rfl

/-- A successful dispatch through the equality chain leaves
`doclayer_webhook_events` exactly as it found it. -/
theorem routeEventKey_ok_webhook_events {s : String}
    (h : routeEventKey fetch cfg faults now s payload db = .ok db') :
    db'.webhook_events = db.webhook_events := by
  unfold routeEventKey at h
  by_cases h1 : (s == "document.processing.started") = true
  · rw [if_pos h1] at h
    exact hps_ok_webhook_events h
  rw [if_neg h1] at h
  by_cases h2 : (s == "document.processing.completed") = true
  · rw [if_pos h2] at h
    exact hpc_ok_webhook_events h
  rw [if_neg h2] at h
  by_cases h3 : (s == "document.processing.failed") = true
  · rw [if_pos h3] at h
    exact hpf_ok_webhook_events h
  rw [if_neg h3] at h
  by_cases h4 : (s == "batch.started") = true
  · rw [if_pos h4] at h
    injection h with h
    subst h
    exact handleBatchStarted_webhook_events
  rw [if_neg h4] at h
  by_cases h5 : (s == "batch.progress") = true
  · rw [if_pos h5] at h
    injection h with h
    subst h
    exact handleBatchProgress_webhook_events
  rw [if_neg h5] at h
  by_cases h6 : (s == "batch.completed") = true
  · rw [if_pos h6] at h
    injection h with h
    subst h
    exact handleBatchCompleted_webhook_events
  rw [if_neg h6] at h
  by_cases h7 : (s == "batch.failed") = true
  · rw [if_pos h7] at h
    injection h with h
    subst h
    exact handleBatchFailed_webhook_events
  rw [if_neg h7] at h
  by_cases h8 : (s == "billing.credits.low") = true
  · rw [if_pos h8] at h
    injection h with h
    subst h
    exact handleBillingCreditsLow_webhook_events
  rw [if_neg h8] at h
  by_cases h9 : (s == "billing.credits.exhausted") = true
  · rw [if_pos h9] at h
    injection h with h
    subst h
    exact handleBillingCreditsExhausted_webhook_events
  rw [if_neg h9] at h
  by_cases h10 : (s == "billing.usage.report") = true
  · rw [if_pos h10] at h
    injection h with h
    subst h
    exact handleBillingUsageReport_webhook_events
  rw [if_neg h10] at h
  by_cases h11 : (s == "workflow.started") = true
  · rw [if_pos h11] at h
    injection h with h
    subst h
    exact handleWorkflowStarted_webhook_events
  rw [if_neg h11] at h
  by_cases h12 : (s == "workflow.completed") = true
  · rw [if_pos h12] at h
    injection h with h
    subst h
    exact handleWorkflowCompleted_webhook_events
  rw [if_neg h12] at h
  by_cases h13 : (s == "workflow.failed") = true
  · rw [if_pos h13] at h
    injection h with h
    subst h
    exact handleWorkflowFailed_webhook_events
  rw [if_neg h13] at h
  by_cases h14 : (s == "test.ping") = true
  · rw [if_pos h14] at h
    injection h with h
    subst h
    rfl
  rw [if_neg h14] at h
  injection h with h
  subst h
  rfl

/-- The routing switch never writes the audit table: a successful route
leaves `doclayer_webhook_events` exactly as it found it. -/
theorem routeEvent_ok_webhook_events {et : Option String}
    (h : routeEvent fetch cfg faults now et payload db = .ok db') :
    db'.webhook_events = db.webhook_events := by
  cases et with
  | none =>
    simp only [routeEvent] at h
    injection h with h
    subst h
    rfl
  | some s =>
    simp only [routeEvent] at h
    exact routeEventKey_ok_webhook_events h

/-- When the document write does not fail, no arm of the equality chain
throws. -/
theorem routeEventKey_ok_of_docWrite_false {s : String}
    (hdw : faults.docWrite = false) :
    ∃ db', routeEventKey fetch cfg faults now s payload db = .ok db' := by
  unfold routeEventKey
  by_cases h1 : (s == "document.processing.started") = true
  · rw [if_pos h1]
    unfold handleProcessingStarted
    rw [hdw, if_neg Bool.false_ne_true]
    exact ⟨_, rfl⟩
  rw [if_neg h1]
  by_cases h2 : (s == "document.processing.completed") = true
  · rw [if_pos h2]
    unfold handleProcessingCompleted
    rw [hdw, if_neg Bool.false_ne_true]
    by_cases hapi :
        (truthyEnv cfg.apiKey && truthyEnv payload.data.document_id) = true
    · rw [if_pos hapi]
      exact ⟨_, rfl⟩
    · rw [if_neg hapi]
      exact ⟨_, rfl⟩
  rw [if_neg h2]
  by_cases h3 : (s == "document.processing.failed") = true
  · rw [if_pos h3]
    unfold handleProcessingFailed
    rw [hdw, if_neg Bool.false_ne_true]
    exact ⟨_, rfl⟩
  rw [if_neg h3]
  by_cases h4 : (s == "batch.started") = true
  · rw [if_pos h4]
    exact ⟨_, rfl⟩
  rw [if_neg h4]
  by_cases h5 : (s == "batch.progress") = true
  · rw [if_pos h5]
    exact ⟨_, rfl⟩
  rw [if_neg h5]
  by_cases h6 : (s == "batch.completed") = true
  · rw [if_pos h6]
    exact ⟨_, rfl⟩
  rw [if_neg h6]
  by_cases h7 : (s == "batch.failed") = true
  · rw [if_pos h7]
    exact ⟨_, rfl⟩
  rw [if_neg h7]
  by_cases h8 : (s == "billing.credits.low") = true
  · rw [if_pos h8]
    exact ⟨_, rfl⟩
  rw [if_neg h8]
  by_cases h9 : (s == "billing.credits.exhausted") = true
  · rw [if_pos h9]
    exact ⟨_, rfl⟩
  rw [if_neg h9]
  by_cases h10 : (s == "billing.usage.report") = true
  · rw [if_pos h10]
    exact ⟨_, rfl⟩
  rw [if_neg h10]
  by_cases h11 : (s == "workflow.started") = true
  · rw [if_pos h11]
    exact ⟨_, rfl⟩
  rw [if_neg h11]
  by_cases h12 : (s == "workflow.completed") = true
  · rw [if_pos h12]
    exact ⟨_, rfl⟩
  rw [if_neg h12]
  by_cases h13 : (s == "workflow.failed") = true
  · rw [if_pos h13]
    exact ⟨_, rfl⟩
  rw [if_neg h13]
  by_cases h14 : (s == "test.ping") = true
  · rw [if_pos h14]
    exact ⟨_, rfl⟩
  rw [if_neg h14]
  exact ⟨_, rfl⟩

/-- When the document write does not fail, no arm of the routing switch
throws. -/
theorem routeEvent_ok_of_docWrite_false
    (fetch : String → Option (List ExtractionData)) (cfg : Config)
    (faults : Faults) (now : String) (et : Option String)
    (payload : WebhookPayload) (db : Db)
    (hdw : faults.docWrite = false) :
    ∃ db2, routeEvent fetch cfg faults now et payload db = .ok db2 := by
  cases et with
  | none => exact ⟨db, rfl⟩
  | some s =>
    simp only [routeEvent]
    exact routeEventKey_ok_of_docWrite_false hdw

/-- A POST request that passes the signature gate and parses reduces to
audit insert, routing, and the mark-processed update. -/
theorem handleRequest_routed
    (hm : req.method = "POST")
    (hsig : sigRejected hmacHex cfg req = false)
    (hp : parse req.rawBody = some payload) :
    handleRequest hmacHex parse fetch cfg faults now req db =
      (match routeEvent fetch cfg faults now
          (effectiveEventType req.eventHeader payload.event_type) payload
          (logWebhookEvent faults
            (effectiveEventType req.eventHeader payload.event_type)
            (effectiveDeliveryId req.deliveryHeader) payload db) with
       | .error _ =>
          (500, logWebhookEvent faults
            (effectiveEventType req.eventHeader payload.event_type)
            (effectiveDeliveryId req.deliveryHeader) payload db)
       | .ok db2 =>
          (200, markProcessed faults now
            (effectiveDeliveryId req.deliveryHeader) db2)) := by
  unfold handleRequest
  rw [hm, hsig, hp]
  simp only [beq_self_eq_true, Bool.not_true, Bool.false_eq_true, if_false]

/-- The fields of my `docUpsert` model: the update path preserves length,
the insert path appends one row. -/
theorem docUpsert_length (j : String) (u : DocRow → DocRow)
    (mk : String → DocRow) :
    (docUpsert j u mk db).documents.length =
      (if db.documents.any (fun r => r.doclayer_job_id == j) then
        db.documents.length
      else db.documents.length + 1) := by
  unfold docUpsert
  split <;> simp

/-- Row count for the conflict key after an upsert whose update function
preserves the key (`ON CONFLICT ... DO UPDATE` keeps the key column). -/
theorem docUpsert_countP (j : String) (u : DocRow → DocRow)
    (mk : String → DocRow)
    (hu : ∀ r, (u r).doclayer_job_id = r.doclayer_job_id)
    (hm : ∀ f, (mk f).doclayer_job_id = j) :
    (docUpsert j u mk db).documents.countP
        (fun r => r.doclayer_job_id == j) =
      (if db.documents.any (fun r => r.doclayer_job_id == j) then
        db.documents.countP (fun r => r.doclayer_job_id == j)
      else db.documents.countP (fun r => r.doclayer_job_id == j) + 1) := by
  unfold docUpsert
  by_cases hAny : (db.documents.any fun r => r.doclayer_job_id == j) = true
  · rw [if_pos hAny, if_pos hAny]
    show (db.documents.map fun r =>
        if (r.doclayer_job_id == j) = true then u r else r).countP
          (fun r => r.doclayer_job_id == j) = _
    rw [List.countP_map]
    refine List.countP_congr (fun r _ => ?_)
    by_cases h0 : (r.doclayer_job_id == j) = true
    · simp [Function.comp, h0, hu]
    · simp [Function.comp, h0]
  · rw [if_neg hAny, if_neg hAny]
    show (db.documents ++ [mk (toString db.nextId)]).countP
        (fun r => r.doclayer_job_id == j) = _
    rw [List.countP_append]
    simp [List.countP_cons, hm]

/-- Every row matching the conflict key after an upsert satisfies `P`,
provided `P` holds of updated rows and of the fresh row. -/
theorem docUpsert_pred (db : Db) (j : String) (u : DocRow → DocRow)
    (mk : String → DocRow) (P : DocRow → Prop)
    (hP : ∀ r, P (u r)) (hmk : ∀ f, P (mk f)) :
    ∀ r ∈ (docUpsert j u mk db).documents,
      r.doclayer_job_id = j → P r := by
  unfold docUpsert
  by_cases hAny : (db.documents.any fun r => r.doclayer_job_id == j) = true
  · rw [if_pos hAny]
    intro r hr hj
    simp only [List.mem_map] at hr
    obtain ⟨r0, _, rfl⟩ := hr
    by_cases h0 : (r0.doclayer_job_id == j) = true
    · rw [if_pos h0]
      exact hP r0
    · rw [if_neg h0] at hj
      exact absurd hj (by simpa using h0)
  · rw [if_neg hAny]
    intro r hr hj
    simp only [List.mem_append, List.mem_singleton] at hr
    rcases hr with hr | rfl
    · have hAny' : (db.documents.any fun r => r.doclayer_job_id == j) = false := by
        simpa using hAny
      exact absurd (by simp [hj]) (List.any_eq_false.mp hAny' r hr)
    · exact hmk _

/-- A conditional row update over a list with no matching row is the
identity (an `UPDATE ... WHERE` matching zero rows changes nothing). -/
theorem map_ite_id {α : Type} (l : List α) (p : α → Bool) (u : α → α)
    (h : ∀ a ∈ l, p a = false) :
    (l.map fun a => if p a then u a else a) = l := by
  induction l with
  | nil => rfl
  | cons x xs ih =>
    have hx := h x (List.mem_cons_self x xs)
    simp only [List.map_cons, hx, Bool.false_eq_true, if_false,
      List.cons.injEq, true_and]
    exact ih (fun a ha => h a (List.mem_cons_of_mem x ha))

/-- The documents table after a successful `handleProcessingStarted`. -/
theorem hps_ok_documents
    (h : handleProcessingStarted faults now data payload db = .ok db') :
    db'.documents =
      (docUpsert data.job_id (startedUpd now data payload)
        (startedNew now data payload) db).documents := by
  unfold handleProcessingStarted at h
  split at h
  · exact Except.noConfusion h
  · injection h with h
    subst h
    rfl

/-- The documents table after a successful `handleProcessingCompleted`
(the best-effort extraction fetch never touches it). -/
theorem hpc_ok_documents
    (h : handleProcessingCompleted fetch cfg faults now data payload db
      = .ok db') :
    db'.documents =
      (docUpsert data.job_id (completedUpd now data payload)
        (completedNew now data payload) db).documents := by
  unfold handleProcessingCompleted at h
  split at h
  · exact Except.noConfusion h
  · split at h <;> injection h with h <;> subst h
    · rw [fetchAndStore_documents]
    · rfl

/-- The documents table after a successful `handleProcessingFailed`. -/
theorem hpf_ok_documents
    (h : handleProcessingFailed faults now data payload db = .ok db') :
    db'.documents =
      (docUpsert data.job_id (failedUpd now data payload)
        (failedNew now data payload) db).documents := by
  unfold handleProcessingFailed at h
  split at h
  · exact Except.noConfusion h
  · injection h with h
    subst h
    rfl

/-- After the mark-processed update, every audit row whose `event_id`
equals the delivery identifier carries `processed = true`. -/
theorem markProcessed_marks_matching (did : String)
    (hau : faults.auditUpdate = false) :
    ((markProcessed faults now did db).webhook_events.filter
        (fun r => r.event_id == did)).all (fun r => r.processed) = true := by
  unfold markProcessed
  rw [hau, if_neg Bool.false_ne_true]
  simp only [List.all_eq_true, List.mem_filter, List.mem_map]
  rintro r ⟨⟨r0, _, rfl⟩, hid⟩
  by_cases h0 : (r0.event_id == did) = true
  · rw [if_pos h0]
  · rw [if_neg h0] at hid ⊢
    exact absurd hid h0

/-- The mark-processed update touches no column other than `processed` and
`processed_at`; in particular `signature_valid` survives it. -/
theorem markProcessed_sigvalid (did : String)
    (hdb : db.webhook_events.all (fun r => r.signature_valid) = true) :
    (markProcessed faults now did db).webhook_events.all
      (fun r => r.signature_valid) = true := by
  unfold markProcessed
  split
  · exact hdb
  · simp only [List.all_eq_true, List.mem_map]
    rintro r ⟨r0, hr0, rfl⟩
    have := List.all_eq_true.mp hdb r0 hr0
    by_cases h0 : (r0.event_id == did) = true
    · rw [if_pos h0]
      exact this
    · rw [if_neg h0]
      exact this

/-- The audit insert writes `signature_valid := true`, so it preserves the
all-rows-valid invariant. -/
theorem logWebhookEvent_sigvalid (faults : Faults) (et : Option String)
    (did : String) (payload : WebhookPayload) (db : Db)
    (hdb : db.webhook_events.all (fun r => r.signature_valid) = true) :
    (logWebhookEvent faults et did payload db).webhook_events.all
      (fun r => r.signature_valid) = true := by
  unfold logWebhookEvent
  split
  · exact hdb
  · simp only [List.all_append, List.all_cons, List.all_nil]
    simp [hdb]

/-- A key outside the routing table falls through every arm of the chain:
the `default` arm acknowledges with no mutation. -/
theorem routeEventKey_unrecognized {s : String}
    (hs : s ∉ recognizedEventTypes) :
    routeEventKey fetch cfg faults now s payload db = .ok db := by
  simp only [recognizedEventTypes, List.mem_cons, List.not_mem_nil, or_false,
    not_or] at hs
  obtain ⟨hn1, hn2, hn3, hn4, hn5, hn6, hn7, hn8, hn9, hn10, hn11, hn12, hn13, hn14⟩ := hs
  unfold routeEventKey
  rw [if_neg (by simp [hn1])]
  rw [if_neg (by simp [hn2])]
  rw [if_neg (by simp [hn3])]
  rw [if_neg (by simp [hn4])]
  rw [if_neg (by simp [hn5])]
  rw [if_neg (by simp [hn6])]
  rw [if_neg (by simp [hn7])]
  rw [if_neg (by simp [hn8])]
  rw [if_neg (by simp [hn9])]
  rw [if_neg (by simp [hn10])]
  rw [if_neg (by simp [hn11])]
  rw [if_neg (by simp [hn12])]
  rw [if_neg (by simp [hn13])]
  rw [if_neg (by simp [hn14])]

/-- The routing switch acknowledges an unrecognized (or absent) event type
with no mutation. -/
theorem routeEvent_unrecognized {et : Option String}
    (h : ∀ s, et = some s → s ∉ recognizedEventTypes) :
    routeEvent fetch cfg faults now et payload db = .ok db := by
  cases et with
  | none => rfl
  | some s =>
    simp only [routeEvent]
    exact routeEventKey_unrecognized (h s rfl)

/-- A document event routed while the document write faults throws. -/
theorem routeEventKey_doc_fault
    (fetch : String → Option (List ExtractionData)) (cfg : Config)
    (faults : Faults) (now : String) (s : String)
    (payload : WebhookPayload) (db : Db)
    (hdw : faults.docWrite = true) (hdoc : s ∈ documentEventTypes) :
    ∃ e, routeEventKey fetch cfg faults now s payload db = .error e := by
  have hd : s = "document.processing.started"
      ∨ s = "document.processing.completed"
      ∨ s = "document.processing.failed" := by
    simpa [documentEventTypes] using hdoc
  rcases hd with rfl | rfl | rfl
  · refine ⟨"Failed to insert document", ?_⟩
    show handleProcessingStarted faults now payload.data payload db = _
    unfold handleProcessingStarted
    rw [if_pos hdw]
  · refine ⟨"Failed to update document", ?_⟩
    show handleProcessingCompleted fetch cfg faults now payload.data payload
      db = _
    unfold handleProcessingCompleted
    rw [if_pos hdw]
  · refine ⟨"Failed to update document", ?_⟩
    show handleProcessingFailed faults now payload.data payload db = _
    unfold handleProcessingFailed
    rw [if_pos hdw]

/-- A secondary (batch / workflow / billing / usage) event routed while its
table write faults is acknowledged and mutates nothing. -/
theorem routeEventKey_secondary_fault {s : String}
    (hbf : faults.batchWrite = true) (hwf : faults.workflowWrite = true)
    (hlf : faults.billingWrite = true) (huf : faults.usageWrite = true)
    (hsec : s ∈ secondaryEventTypes) :
    routeEventKey fetch cfg faults now s payload db = .ok db := by
  have hd : 
      s = "batch.started"
      ∨ s = "batch.progress"
      ∨ s = "batch.completed"
      ∨ s = "batch.failed"
      ∨ s = "billing.credits.low"
      ∨ s = "billing.credits.exhausted"
      ∨ s = "billing.usage.report"
      ∨ s = "workflow.started"
      ∨ s = "workflow.completed"
      ∨ s = "workflow.failed" := by
    simpa [secondaryEventTypes] using hsec
  rcases hd with rfl | rfl | rfl | rfl | rfl | rfl | rfl | rfl | rfl | rfl
  · show Except.ok (handleBatchStarted faults now payload.data payload db) = _
    unfold handleBatchStarted
    rw [if_pos hbf]
  · show Except.ok (handleBatchProgress faults now payload.data db) = _
    unfold handleBatchProgress
    rw [if_pos hbf]
  · show Except.ok (handleBatchCompleted faults now payload.data payload db) = _
    unfold handleBatchCompleted
    rw [if_pos hbf]
  · show Except.ok (handleBatchFailed faults now payload.data payload db) = _
    unfold handleBatchFailed
    rw [if_pos hbf]
  · show Except.ok (handleBillingCreditsLow faults payload.data payload db) = _
    unfold handleBillingCreditsLow
    rw [if_pos hlf]
  · show Except.ok (handleBillingCreditsExhausted faults payload.data payload db) = _
    unfold handleBillingCreditsExhausted
    rw [if_pos hlf]
  · show Except.ok (handleBillingUsageReport faults payload.data payload db) = _
    unfold handleBillingUsageReport
    rw [if_pos huf]
  · show Except.ok (handleWorkflowStarted faults now payload.data payload db) = _
    unfold handleWorkflowStarted
    rw [if_pos hwf]
  · show Except.ok (handleWorkflowCompleted faults now payload.data payload db) = _
    unfold handleWorkflowCompleted
    rw [if_pos hwf]
  · show Except.ok (handleWorkflowFailed faults now payload.data payload db) = _
    unfold handleWorkflowFailed
    rw [if_pos hwf]

/-- The audit insert followed by the mark-processed update: the inserted
row is matched by its own `event_id` and comes back marked processed, and
every pre-existing row with the same `event_id` is marked too. -/
theorem markProcessed_logWebhookEvent {et : Option String} (did : String)
    (hai : faults.auditInsert = false) (hau : faults.auditUpdate = false) :
    markProcessed faults now did (logWebhookEvent faults et did payload db) =
      { db with webhook_events :=
          db.webhook_events.map (fun r =>
            if r.event_id == did then
              { r with processed := true, processed_at := some now }
            else r)
          ++ [{ event_type := et, event_id := did, payload := payload,
                signature_valid := true, processed := true,
                processed_at := some now }] } := by
  unfold logWebhookEvent markProcessed
  rw [hai, hau, if_neg Bool.false_ne_true, if_neg Bool.false_ne_true]
  simp

end Lemmas

/-! ### Shared concrete inputs for the witnesses and counterexamples -/

/-- A stand-in digest function for concrete runs (the claims settled on
concrete inputs never depend on the digest's internals). -/
def sampleHmac : String → String → String := fun secret payload =>
  "digest-" ++ secret ++ "-" ++ payload

/-- A parse stand-in for requests whose body is never parsed. -/
def sampleParseNone : String → Option WebhookPayload := fun _ => none

/-- Extraction fetch that always fails (best-effort path disabled). -/
def sampleFetch : String → Option (List ExtractionData) := fun _ => none

/-- `document.processing.completed` data for job `job_1`. -/
def sampleDataC : EventData :=
  { job_id := "job_1", document_id := some "doc_1", insights_count := 3 }

/-- A completed envelope for job `job_1`. -/
def samplePayloadC : WebhookPayload :=
  { event_type := some "document.processing.completed", data := sampleDataC }

/-- `document.processing.started` data for job `job_1`. -/
def sampleDataS : EventData := { job_id := "job_1", checksum := "c0" }

/-- A started envelope for job `job_1`. -/
def samplePayloadS : WebhookPayload :=
  { event_type := some "document.processing.started", data := sampleDataS }

/-- An envelope with an unrecognized event type. -/
def samplePayloadU : WebhookPayload :=
  { event_type := some "document.archived" }

/-- A parse stand-in mapping tagged bodies to the sample envelopes. -/
def sampleParse : String → Option WebhookPayload := fun b =>
  if b == "bodyC" then some samplePayloadC
  else if b == "bodyS" then some samplePayloadS
  else if b == "bodyU" then some samplePayloadU
  else none

/-! ### The claims -/

/-- C1.  With a webhook secret configured, a request whose
`x-webhook-signature` header is absent, lacks the `sha256=` prefix, or
carries a hex digest different from the HMAC of the raw body under the
secret is answered with status 401, and the database — audit log
included — is left untouched. -/
theorem signature_failure_yields_401_and_no_write
    (hmacHex : String → String → String)
    (parse : String → Option WebhookPayload)
    (fetch : String → Option (List ExtractionData))
    (cfg : Config) (faults : Faults) (now : String) (req : Request)
    (db : Db) (s : String)
    (hsec : cfg.secret = some s) (hs : s ≠ "")
    (hpost : req.method = "POST")
    (hbad : req.sigHeader = none ∨
      ∃ h, req.sigHeader = some h ∧
        (h.startsWith "sha256=" = false ∨
          h.drop 7 ≠ hmacHex s req.rawBody)) :
    handleRequest hmacHex parse fetch cfg faults now req db = (401, db) := by
  have hver : verifySignature hmacHex req.rawBody (req.sigHeader.getD "")
      (cfg.secret.getD "") = false := by
    rw [hsec]
    rcases hbad with hnone | ⟨h, hh, hcase⟩
    · rw [hnone]
      rfl
    · rw [hh]
      unfold verifySignature
      simp only [Option.getD_some]
      rcases hcase with hpre | hne
      · rw [if_pos]
        simp [hpre]
      · by_cases hpre : h.startsWith "sha256=" = true
        · rw [if_neg]
          · simp only [Option.getD_some, beq_eq_false_iff_ne, ne_eq]
            exact fun he => hne he.symm
          · intro hor
            rcases Bool.or_eq_true_iff.mp hor with he | hnp
            · have : h = "" := by simpa using he
              subst this
              exact absurd hpre (by decide)
            · rw [hpre] at hnp
              exact absurd hnp (by decide)
        · rw [if_pos]
          simp only [Bool.not_eq_true] at hpre
          simp [hpre]
  have hrej : sigRejected hmacHex cfg req = true := by
    unfold sigRejected
    rw [hver, hsec]
    unfold truthyEnv
    simpa using hs
  unfold handleRequest
  rw [hpost, hrej]
  simp

/-- Witness for C1: a POST with no signature header, a configured secret,
and an empty database is rejected with 401 and no database change. -/
theorem signature_failure_yields_401_and_no_write_witness :
    handleRequest sampleHmac sampleParseNone sampleFetch
      { secret := some "topsecret" } {} "2024-01-01T00:00:00Z"
      { method := "POST", sigHeader := none, eventHeader := none,
        deliveryHeader := none, rawBody := "{}" } {} = (401, {}) :=
  signature_failure_yields_401_and_no_write _ _ _ _ _ _ _ _ "topsecret"
    rfl (by decide) rfl (Or.inl rfl)



/-- C2.  Delivering the same `document.processing.completed` payload twice
for a job identifier leaves exactly one Document Job row for that
identifier, in terminal `completed` state; the second delivery updates in
place and adds no row.  (The `≤ 1` hypothesis is the `doclayer_job_id
UNIQUE` constraint of the schema.) -/
theorem completed_twice_single_completed_row
    (fetch : String → Option (List ExtractionData))
    (cfg : Config) (faults : Faults) (now1 now2 : String)
    (data : EventData) (payload : WebhookPayload) (db db1 db2 : Db)
    (huniq : db.documents.countP
      (fun r => r.doclayer_job_id == data.job_id) ≤ 1)
    (h1 : handleProcessingCompleted fetch cfg faults now1 data payload db
      = .ok db1)
    (h2 : handleProcessingCompleted fetch cfg faults now2 data payload db1
      = .ok db2) :
    db2.documents.countP (fun r => r.doclayer_job_id == data.job_id) = 1
    ∧ (db2.documents.filter (fun r => r.doclayer_job_id == data.job_id)).all
        (fun r => r.status == "completed") = true
    ∧ db2.documents.length = db1.documents.length := by
  have hu : ∀ r, (completedUpd now1 data payload r).doclayer_job_id =
      r.doclayer_job_id := fun r => rfl
  have hu2 : ∀ r, (completedUpd now2 data payload r).doclayer_job_id =
      r.doclayer_job_id := fun r => rfl
  have hmk : ∀ f, (completedNew now1 data payload f).doclayer_job_id =
      data.job_id := fun f => rfl
  have hmk2 : ∀ f, (completedNew now2 data payload f).doclayer_job_id =
      data.job_id := fun f => rfl
  have hd1 := hpc_ok_documents h1
  have hd2 := hpc_ok_documents h2
  have hcnt1 : db1.documents.countP
      (fun r => r.doclayer_job_id == data.job_id) = 1 := by
    rw [hd1, docUpsert_countP _ _ _ hu hmk]
    by_cases hAny : (db.documents.any
        fun r => r.doclayer_job_id == data.job_id) = true
    · rw [if_pos hAny]
      have hpos : 0 < db.documents.countP
          (fun r => r.doclayer_job_id == data.job_id) :=
        List.countP_pos_iff.mpr (List.any_eq_true.mp hAny)
      omega
    · rw [if_neg hAny]
      have hz : db.documents.countP
          (fun r => r.doclayer_job_id == data.job_id) = 0 := by
        rw [List.countP_eq_zero]
        intro a ha
        have := List.any_eq_false.mp (Bool.eq_false_iff.mpr hAny) a ha
        simpa using this
      omega
  have hAny1 : (db1.documents.any
      fun r => r.doclayer_job_id == data.job_id) = true :=
    List.any_eq_true.mpr (List.countP_pos_iff.mp (by omega))
  refine ⟨?_, ?_, ?_⟩
  · rw [hd2, docUpsert_countP _ _ _ hu2 hmk2, if_pos hAny1]
    exact hcnt1
  · have hpred := docUpsert_pred db1 data.job_id
      (completedUpd now2 data payload) (completedNew now2 data payload)
      (fun r => r.status = "completed") (fun r => rfl) (fun f => rfl)
    simp only [List.all_eq_true, List.mem_filter]
    rintro r ⟨hr, hp⟩
    have := hpred r (by rw [← hd2]; exact hr) (by simpa using hp)
    simp [this]
  · rw [hd2, docUpsert_length, if_pos hAny1]

/-- First delivery of the sample completed payload to an empty database. -/
def sampleDb1 : Db :=
  (handleProcessingCompleted sampleFetch {} {} "t1" sampleDataC
    samplePayloadC {}).toOption.getD {}

/-- Second delivery of the same payload. -/
def sampleDb2 : Db :=
  (handleProcessingCompleted sampleFetch {} {} "t2" sampleDataC
    samplePayloadC sampleDb1).toOption.getD {}

/-- Witness for C2: the sample double delivery ends with one completed row
and no duplicate. -/
theorem completed_twice_single_completed_row_witness :
    sampleDb2.documents.countP
        (fun r => r.doclayer_job_id == sampleDataC.job_id) = 1
    ∧ (sampleDb2.documents.filter
        (fun r => r.doclayer_job_id == sampleDataC.job_id)).all
        (fun r => r.status == "completed") = true
    ∧ sampleDb2.documents.length = sampleDb1.documents.length :=
  completed_twice_single_completed_row sampleFetch {} {} "t1" "t2"
    sampleDataC samplePayloadC {} sampleDb1 sampleDb2 (by decide)
    rfl rfl

/-- `document.processing.failed` data for job `job_1`. -/
def sampleDataF : EventData :=
  { job_id := "job_1", document_id := some "doc_1", error := "boom",
    error_type := "ProcessingError" }

/-- A failed envelope for job `job_1`. -/
def samplePayloadF : WebhookPayload :=
  { event_type := some "document.processing.failed", data := sampleDataF }

/-- Counterexample to C3: a `document.processing.completed` event applied
to a database with no row for the job identifier creates one — the
document handlers upsert, they do not update-only. -/
theorem completed_event_creates_document_row :
    (handleProcessingCompleted sampleFetch {} {} "t1" sampleDataC
        samplePayloadC {}).toOption.map (fun d => d.documents.length)
      = some 1 := rfl

/-- C3 (amended).  For batch and workflow entities, `progress`,
`completed` and `failed` events never create rows: when no row with the
identifier exists, the update matches zero rows and the table is
unchanged.  (Document `completed`/`failed` events, by contrast, upsert and
do create the row — see the counterexample.) -/
theorem update_only_handlers_never_create_rows
    (faults : Faults) (now : String) (data : EventData)
    (payload : WebhookPayload) (db : Db)
    (hb : db.batches.all (fun r => !(r.batch_id == data.batch_id)) = true)
    (hw : db.workflows.all
      (fun r => !(r.workflow_id == data.workflow_id)) = true) :
    (handleBatchProgress faults now data db).batches = db.batches
    ∧ (handleBatchCompleted faults now data payload db).batches = db.batches
    ∧ (handleBatchFailed faults now data payload db).batches = db.batches
    ∧ (handleWorkflowCompleted faults now data payload db).workflows =
        db.workflows
    ∧ (handleWorkflowFailed faults now data payload db).workflows =
        db.workflows := by
  have hb' : ∀ a ∈ db.batches, (a.batch_id == data.batch_id) = false :=
    fun a ha => by simpa using List.all_eq_true.mp hb a ha
  have hw' : ∀ a ∈ db.workflows,
      (a.workflow_id == data.workflow_id) = false :=
    fun a ha => by simpa using List.all_eq_true.mp hw a ha
  refine ⟨?_, ?_, ?_, ?_, ?_⟩
  · unfold handleBatchProgress batchUpdate
    split
    · rfl
    · exact map_ite_id db.batches _ _ hb'
  · unfold handleBatchCompleted batchUpdate
    split
    · rfl
    · exact map_ite_id db.batches _ _ hb'
  · unfold handleBatchFailed batchUpdate
    split
    · rfl
    · exact map_ite_id db.batches _ _ hb'
  · unfold handleWorkflowCompleted workflowUpdate
    split
    · rfl
    · exact map_ite_id db.workflows _ _ hw'
  · unfold handleWorkflowFailed workflowUpdate
    split
    · rfl
    · exact map_ite_id db.workflows _ _ hw'

/-- Witness for C3 (amended) on the empty database. -/
theorem update_only_handlers_never_create_rows_witness :
    (handleBatchProgress {} "t1" sampleDataC {}).batches = Db.batches {}
    ∧ (handleBatchCompleted {} "t1" sampleDataC samplePayloadC {}).batches =
        Db.batches {}
    ∧ (handleBatchFailed {} "t1" sampleDataC samplePayloadC {}).batches =
        Db.batches {}
    ∧ (handleWorkflowCompleted {} "t1" sampleDataC samplePayloadC
        {}).workflows = Db.workflows {}
    ∧ (handleWorkflowFailed {} "t1" sampleDataC samplePayloadC
        {}).workflows = Db.workflows {} :=
  update_only_handlers_never_create_rows {} "t1" sampleDataC samplePayloadC
    {} rfl rfl

/-- Counterexample to C4: after `started · completed` (row terminal in
`completed`), a replayed `started` event sets the status back to the
non-terminal `processing` — the upsert overwrites the status
unconditionally. -/
theorem late_started_reverts_terminal_status :
    ((handleProcessingCompleted sampleFetch {} {} "t1" sampleDataC
        samplePayloadC {}).bind
      (handleProcessingStarted {} "t2" sampleDataS samplePayloadS)
      ).toOption.map (fun d => d.documents.map (fun r => r.status))
      = some ["processing"]
    ∧ (handleProcessingCompleted sampleFetch {} {} "t1" sampleDataC
        samplePayloadC {}).toOption.map
        (fun d => d.documents.map (fun r => r.status))
      = some ["completed"] := ⟨rfl, rfl⟩

/-- C4 (amended).  Once a Document Job row is terminal, later `completed`
or `failed` events for the same job identifier keep it terminal (they set
`completed` resp. `failed`); a later `started` event, however, resets the
status to `processing`. -/
theorem terminal_preserved_by_completed_failed
    (fetch : String → Option (List ExtractionData)) (cfg : Config)
    (faults : Faults) (now : String) (j : String)
    (dataC dataF dataS : EventData) (pC pF pS : WebhookPayload)
    (db dbC dbF dbS : Db)
    (hjC : dataC.job_id = j) (hjF : dataF.job_id = j)
    (hjS : dataS.job_id = j)
    (hterm : (db.documents.filter
        (fun r => r.doclayer_job_id == j)).all
        (fun r => terminalStatus r.status) = true)
    (hC : handleProcessingCompleted fetch cfg faults now dataC pC db
      = .ok dbC)
    (hF : handleProcessingFailed faults now dataF pF db = .ok dbF)
    (hS : handleProcessingStarted faults now dataS pS db = .ok dbS) :
    (dbC.documents.filter (fun r => r.doclayer_job_id == j)).all
        (fun r => terminalStatus r.status) = true
    ∧ (dbF.documents.filter (fun r => r.doclayer_job_id == j)).all
        (fun r => terminalStatus r.status) = true
    ∧ (dbS.documents.filter (fun r => r.doclayer_job_id == j)).all
        (fun r => r.status == "processing") = true := by
  subst hjC
  refine ⟨?_, ?_, ?_⟩
  · have hpred := docUpsert_pred db dataC.job_id
      (completedUpd now dataC pC) (completedNew now dataC pC)
      (fun r => terminalStatus r.status = true)
      (fun r => rfl) (fun f => rfl)
    simp only [List.all_eq_true, List.mem_filter]
    rintro r ⟨hr, hp⟩
    exact hpred r (by rw [← hpc_ok_documents hC]; exact hr)
      (by simpa using hp)
  · have hpred := docUpsert_pred db dataF.job_id
      (failedUpd now dataF pF) (failedNew now dataF pF)
      (fun r => terminalStatus r.status = true)
      (fun r => rfl) (fun f => rfl)
    simp only [List.all_eq_true, List.mem_filter]
    rintro r ⟨hr, hp⟩
    exact hpred r (by rw [← hpf_ok_documents hF]; exact hr)
      (by rw [hjF]; simpa using hp)
  · have hpred := docUpsert_pred db dataS.job_id
      (startedUpd now dataS pS) (startedNew now dataS pS)
      (fun r => r.status = "processing") (fun r => rfl) (fun f => rfl)
    simp only [List.all_eq_true, List.mem_filter]
    rintro r ⟨hr, hp⟩
    have := hpred r (by rw [← hps_ok_documents hS]; exact hr)
      (by rw [hjS]; simpa using hp)
    simp [this]

/-- A database holding one terminal (`completed`) row for `job_1`. -/
def sampleDbTerminal : Db :=
  { documents := [{ doclayer_job_id := "job_1", status := "completed" }] }

/-- The sample terminal database after each kind of document event. -/
def sampleDbTC : Db :=
  (handleProcessingCompleted sampleFetch {} {} "t3" sampleDataC
    samplePayloadC sampleDbTerminal).toOption.getD {}

/-- After a `failed` event on the terminal database. -/
def sampleDbTF : Db :=
  (handleProcessingFailed {} "t3" sampleDataF samplePayloadF
    sampleDbTerminal).toOption.getD {}

/-- After a replayed `started` event on the terminal database. -/
def sampleDbTS : Db :=
  (handleProcessingStarted {} "t3" sampleDataS samplePayloadS
    sampleDbTerminal).toOption.getD {}

/-- Witness for C4 (amended): concrete terminal row, all three events.
Note the third conjunct documents the `started` reset on this input. -/
theorem terminal_preserved_by_completed_failed_witness :
    (sampleDbTC.documents.filter
        (fun r => r.doclayer_job_id == sampleDataC.job_id)).all
        (fun r => terminalStatus r.status) = true
    ∧ (sampleDbTF.documents.filter
        (fun r => r.doclayer_job_id == sampleDataC.job_id)).all
        (fun r => terminalStatus r.status) = true
    ∧ (sampleDbTS.documents.filter
        (fun r => r.doclayer_job_id == sampleDataC.job_id)).all
        (fun r => r.status == "processing") = true :=
  terminal_preserved_by_completed_failed sampleFetch {} {} "t3" "job_1"
    sampleDataC sampleDataF sampleDataS samplePayloadC samplePayloadF
    samplePayloadS sampleDbTerminal sampleDbTC sampleDbTF sampleDbTS
    rfl rfl rfl (by decide) rfl rfl rfl

/-- The `document.archived` request used by the C5 scenario. -/
def sampleReqU : Request :=
  { method := "POST", sigHeader := none, eventHeader := none,
    deliveryHeader := some "d7", rawBody := "bodyU" }

/-- A `billing.credits.low` envelope. -/
def samplePayloadB : WebhookPayload :=
  { event_type := some "billing.credits.low" }

/-- Parse stand-in for the billing request. -/
def sampleParseB : String → Option WebhookPayload := fun b =>
  if b == "bodyB" then some samplePayloadB else none

/-- The billing request used by the C7 scenario. -/
def sampleReqB : Request :=
  { method := "POST", sigHeader := none, eventHeader := none,
    deliveryHeader := some "d9", rawBody := "bodyB" }

/-- Counterexample to C5: a request with the unrecognized event type
`document.archived` is answered 200 and its audit row ends with
`processed = true` and a `processed_at` timestamp — it does not remain
flagged unprocessed; the mark-processed update runs for the default arm
too. -/
theorem unknown_event_audit_row_marked_processed :
    (handleRequest sampleHmac sampleParse sampleFetch {} {} "t1"
        sampleReqU {}).1 = 200
    ∧ ((handleRequest sampleHmac sampleParse sampleFetch {} {} "t1"
        sampleReqU {}).2.webhook_events.map
        (fun r => (r.processed, r.processed_at)))
      = [(true, some "t1")] := ⟨rfl, rfl⟩

/-- C5 (amended).  A request whose event type matches no routing key is
answered 200 with no entity mutation; its audit row is written and — like
any routed event — then marked `processed = true` with `processed_at` set
by the end-of-request update. -/
theorem unknown_event_acknowledged_no_mutation
    (hmacHex : String → String → String)
    (parse : String → Option WebhookPayload)
    (fetch : String → Option (List ExtractionData))
    (cfg : Config) (faults : Faults) (now : String) (req : Request)
    (db : Db) (payload : WebhookPayload)
    (hm : req.method = "POST")
    (hsig : sigRejected hmacHex cfg req = false)
    (hp : parse req.rawBody = some payload)
    (hun : ∀ s, effectiveEventType req.eventHeader payload.event_type
      = some s → s ∉ recognizedEventTypes)
    (hai : faults.auditInsert = false) (hau : faults.auditUpdate = false) :
    handleRequest hmacHex parse fetch cfg faults now req db =
      (200, { db with webhook_events :=
          db.webhook_events.map (fun r =>
            if r.event_id == effectiveDeliveryId req.deliveryHeader then
              { r with processed := true, processed_at := some now }
            else r)
          ++ [{ event_type :=
                  effectiveEventType req.eventHeader payload.event_type,
                event_id := effectiveDeliveryId req.deliveryHeader,
                payload := payload, signature_valid := true,
                processed := true, processed_at := some now }] }) := by
  rw [handleRequest_routed hm hsig hp, routeEvent_unrecognized hun]
  exact congrArg (Prod.mk 200) (markProcessed_logWebhookEvent _ hai hau)

/-- Witness for C5 (amended): the concrete `document.archived` request is
answered 200. -/
theorem unknown_event_acknowledged_no_mutation_witness :
    (handleRequest sampleHmac sampleParse sampleFetch {} {} "t1"
        sampleReqU {}).1 = 200 := by
  rw [unknown_event_acknowledged_no_mutation sampleHmac sampleParse
    sampleFetch {} {} "t1" sampleReqU {} samplePayloadU rfl rfl rfl
    (by intro s hs; injection hs with h; subst h; decide) rfl rfl]

/-- C6.  When the Document Job upsert reports an error on a
`document.processing.*` event, the request aborts with 500: the audit row
inserted before routing remains (still `processed = false`,
`processed_at = NULL`) and nothing else in the database changes. -/
theorem doc_persist_failure_aborts_request
    (hmacHex : String → String → String)
    (parse : String → Option WebhookPayload)
    (fetch : String → Option (List ExtractionData))
    (cfg : Config) (faults : Faults) (now : String) (req : Request)
    (db : Db) (payload : WebhookPayload) (s : String)
    (hm : req.method = "POST")
    (hsig : sigRejected hmacHex cfg req = false)
    (hp : parse req.rawBody = some payload)
    (het : effectiveEventType req.eventHeader payload.event_type = some s)
    (hdoc : s ∈ documentEventTypes)
    (hdw : faults.docWrite = true)
    (hai : faults.auditInsert = false) :
    handleRequest hmacHex parse fetch cfg faults now req db =
      (500, { db with webhook_events := db.webhook_events ++
          [{ event_type := some s,
             event_id := effectiveDeliveryId req.deliveryHeader,
             payload := payload, signature_valid := true,
             processed := false, processed_at := none }] }) := by
  rw [handleRequest_routed hm hsig hp, het]
  obtain ⟨e, he⟩ := routeEventKey_doc_fault fetch cfg faults now s payload
    (logWebhookEvent faults (some s)
      (effectiveDeliveryId req.deliveryHeader) payload db)
    hdw hdoc
  have hroute : routeEvent fetch cfg faults now (some s) payload
      (logWebhookEvent faults (some s)
        (effectiveDeliveryId req.deliveryHeader) payload db) = .error e := by
    simp only [routeEvent]
    exact he
  rw [hroute]
  unfold logWebhookEvent
  rw [hai, if_neg Bool.false_ne_true]

/-- Witness for C6: the concrete completed request with a faulting document
write yields 500 with the unprocessed audit row. -/
theorem doc_persist_failure_aborts_request_witness :
    handleRequest sampleHmac sampleParse sampleFetch {}
        { docWrite := true } "t1"
        { method := "POST", sigHeader := none, eventHeader := none,
          deliveryHeader := some "d8", rawBody := "bodyC" } {} =
      (500, { ({} : Db) with webhook_events := Db.webhook_events {} ++
          [{ event_type := some "document.processing.completed",
             event_id := effectiveDeliveryId (some "d8"),
             payload := samplePayloadC, signature_valid := true,
             processed := false, processed_at := none }] }) :=
  doc_persist_failure_aborts_request sampleHmac sampleParse sampleFetch {}
    { docWrite := true } "t1" _ {} samplePayloadC
    "document.processing.completed" rfl rfl rfl rfl (by decide) rfl rfl

/-- C7.  A request routed to a batch, workflow, billing or usage handler
whose table write reports an error still succeeds: the error is only
logged, the response is 200, the entity tables are untouched, and the
audit row is marked processed. -/
theorem secondary_persist_failure_request_succeeds
    (hmacHex : String → String → String)
    (parse : String → Option WebhookPayload)
    (fetch : String → Option (List ExtractionData))
    (cfg : Config) (faults : Faults) (now : String) (req : Request)
    (db : Db) (payload : WebhookPayload) (s : String)
    (hm : req.method = "POST")
    (hsig : sigRejected hmacHex cfg req = false)
    (hp : parse req.rawBody = some payload)
    (het : effectiveEventType req.eventHeader payload.event_type = some s)
    (hsec : s ∈ secondaryEventTypes)
    (hbf : faults.batchWrite = true) (hwf : faults.workflowWrite = true)
    (hlf : faults.billingWrite = true) (huf : faults.usageWrite = true)
    (hai : faults.auditInsert = false) (hau : faults.auditUpdate = false) :
    handleRequest hmacHex parse fetch cfg faults now req db =
      (200, { db with webhook_events :=
          db.webhook_events.map (fun r =>
            if r.event_id == effectiveDeliveryId req.deliveryHeader then
              { r with processed := true, processed_at := some now }
            else r)
          ++ [{ event_type := some s,
                event_id := effectiveDeliveryId req.deliveryHeader,
                payload := payload, signature_valid := true,
                processed := true, processed_at := some now }] }) := by
  rw [handleRequest_routed hm hsig hp, het]
  have hroute : routeEvent fetch cfg faults now (some s) payload
      (logWebhookEvent faults (some s)
        (effectiveDeliveryId req.deliveryHeader) payload db) =
      .ok (logWebhookEvent faults (some s)
        (effectiveDeliveryId req.deliveryHeader) payload db) := by
    simp only [routeEvent]
    exact routeEventKey_secondary_fault hbf hwf hlf huf hsec
  rw [hroute]
  exact congrArg (Prod.mk 200) (markProcessed_logWebhookEvent _ hai hau)

/-- Witness for C7: a `billing.credits.low` request whose insert faults is
still answered 200. -/
theorem secondary_persist_failure_request_succeeds_witness :
    (handleRequest sampleHmac sampleParseB sampleFetch {}
        { batchWrite := true, workflowWrite := true, billingWrite := true,
          usageWrite := true } "t1" sampleReqB {}).1 = 200 := by
  rw [secondary_persist_failure_request_succeeds sampleHmac sampleParseB
    sampleFetch {}
    { batchWrite := true, workflowWrite := true, billingWrite := true,
      usageWrite := true } "t1" sampleReqB {}
    samplePayloadB "billing.credits.low"
    rfl rfl rfl rfl (by decide) rfl rfl rfl rfl rfl rfl]

/-- C9.  Every audit row the handler writes carries
`signature_valid = true` — the insert uses the constant `true`, even when
no secret is configured and verification was skipped; rows recording a
failed verification cannot exist because such requests are rejected before
the insert.  Stated as preservation: if every existing audit row has the
flag set, every audit row after any request does too. -/
theorem audit_rows_signature_valid_true
    (hmacHex : String → String → String)
    (parse : String → Option WebhookPayload)
    (fetch : String → Option (List ExtractionData))
    (cfg : Config) (faults : Faults) (now : String) (req : Request)
    (db : Db)
    (hdb : db.webhook_events.all (fun r => r.signature_valid) = true) :
    ((handleRequest hmacHex parse fetch cfg faults now req
        db).2).webhook_events.all (fun r => r.signature_valid) = true := by
  unfold handleRequest
  by_cases hm : (!(req.method == "POST")) = true
  · rw [if_pos hm]
    exact hdb
  rw [if_neg hm]
  by_cases hs : sigRejected hmacHex cfg req = true
  · rw [if_pos hs]
    exact hdb
  rw [if_neg hs]
  cases hp : parse req.rawBody with
  | none =>
    simp only [hp]
    exact hdb
  | some payload =>
    simp only [hp]
    have hlog := logWebhookEvent_sigvalid faults
      (effectiveEventType req.eventHeader payload.event_type)
      (effectiveDeliveryId req.deliveryHeader) payload db hdb
    cases hroute : routeEvent fetch cfg faults now
        (effectiveEventType req.eventHeader payload.event_type) payload
        (logWebhookEvent faults
          (effectiveEventType req.eventHeader payload.event_type)
          (effectiveDeliveryId req.deliveryHeader) payload db) with
    | error e =>
      simp only [hroute]
      exact hlog
    | ok db2 =>
      simp only [hroute]
      apply markProcessed_sigvalid
      rw [routeEvent_ok_webhook_events hroute]
      exact hlog

/-- Witness for C9: a no-secret request for an unknown event on the empty
database leaves only rows with `signature_valid = true`. -/
theorem audit_rows_signature_valid_true_witness :
    ((handleRequest sampleHmac sampleParse sampleFetch {} {} "t1"
        sampleReqU {}).2).webhook_events.all
        (fun r => r.signature_valid) = true :=
  audit_rows_signature_valid_true sampleHmac sampleParse sampleFetch {} {}
    "t1" sampleReqU {} rfl

/-- C10.  The end-of-request mark-processed update matches audit rows by
`event_id` (the delivery identifier), not by the inserted row's primary
key: after a successful request, every `doclayer_webhook_events` row whose
`event_id` equals the request's delivery identifier — pre-existing rows
included — has `processed = true`. -/
theorem mark_processed_matches_by_event_id
    (hmacHex : String → String → String)
    (parse : String → Option WebhookPayload)
    (fetch : String → Option (List ExtractionData))
    (cfg : Config) (faults : Faults) (now : String) (req : Request)
    (db : Db) (payload : WebhookPayload)
    (hm : req.method = "POST")
    (hsig : sigRejected hmacHex cfg req = false)
    (hp : parse req.rawBody = some payload)
    (hdw : faults.docWrite = false)
    (hau : faults.auditUpdate = false) :
    (handleRequest hmacHex parse fetch cfg faults now req db).1 = 200
    ∧ (((handleRequest hmacHex parse fetch cfg faults now req
        db).2).webhook_events.filter
        (fun r => r.event_id == effectiveDeliveryId req.deliveryHeader)).all
        (fun r => r.processed) = true := by
  rw [handleRequest_routed hm hsig hp]
  obtain ⟨db2, h2⟩ := routeEvent_ok_of_docWrite_false fetch cfg faults now
    (effectiveEventType req.eventHeader payload.event_type) payload
    (logWebhookEvent faults
      (effectiveEventType req.eventHeader payload.event_type)
      (effectiveDeliveryId req.deliveryHeader) payload db) hdw
  rw [h2]
  exact ⟨rfl, markProcessed_marks_matching _ hau⟩

/-- The audit row of an earlier request that also fell back to the
`unknown` delivery placeholder. -/
def sampleOldRow : EventRow :=
  { event_id := "unknown", event_type := some "document.archived" }

/-- A database holding that earlier row. -/
def sampleDbOld : Db := { webhook_events := [sampleOldRow] }

/-- The C10 request: no delivery header, so the placeholder is used. -/
def sampleReqNoDelivery : Request :=
  { method := "POST", sigHeader := none, eventHeader := none,
    deliveryHeader := none, rawBody := "bodyU" }

/-- Witness for C10: a request without a delivery header marks the earlier
`unknown` row processed along with its own. -/
theorem mark_processed_matches_by_event_id_witness :
    (handleRequest sampleHmac sampleParse sampleFetch {} {} "t9"
        sampleReqNoDelivery sampleDbOld).1 = 200
    ∧ (((handleRequest sampleHmac sampleParse sampleFetch {} {} "t9"
        sampleReqNoDelivery sampleDbOld).2).webhook_events.filter
        (fun r => r.event_id == effectiveDeliveryId none)).all
        (fun r => r.processed) = true :=
  mark_processed_matches_by_event_id sampleHmac sampleParse sampleFetch
    {} {} "t9" sampleReqNoDelivery sampleDbOld samplePayloadU
    rfl rfl rfl rfl rfl

/-- Supporting fact for the signature round-trip: `verifySignature` accepts
exactly the signatures whose prefix is `sha256=` and whose remainder equals
the digest of the presented body — so a well-formed signature over the
original body verifies. -/
theorem verifySignature_accepts_matching_digest
    (hmacHex : String → String → String) (body secret sig : String)
    (hpre : sig.startsWith "sha256=" = true)
    (hdig : sig.drop 7 = hmacHex secret body) :
    verifySignature hmacHex body sig secret = true := by
  unfold verifySignature
  rw [if_neg]
  · rw [hdig]
    exact beq_self_eq_true _
  · intro hor
    rcases Bool.or_eq_true_iff.mp hor with he | hnp
    · have : sig = "" := by simpa using he
      subst this
      exact absurd hpre (by decide)
    · rw [hpre] at hnp
      exact absurd hnp (by decide)

/-- Supporting fact for the byte-flip half: against a different body, the
same signature verifies only if the digests coincide — the claim that a
byte flip always fails verification is exactly the assumption that
HMAC-SHA-256 digests of the two bodies differ. -/
theorem verifySignature_rejects_other_digest
    (hmacHex : String → String → String) (body' secret sig : String)
    (hdig : sig.drop 7 ≠ hmacHex secret body') :
    verifySignature hmacHex body' sig secret = false := by
  unfold verifySignature
  by_cases hg : (sig == "" || !sig.startsWith "sha256=") = true
  · rw [if_pos hg]
  · rw [if_neg hg]
    exact beq_eq_false_iff_ne.mpr (fun he => hdig he.symm)

end Doclayer
